import Mathlib

/-!
Verification of the tokkuri session library (tokkuri.py) against its
natural-language specification.

The embedding is shallow:
* JSON-serializable session variable values are `JVal`; a session's vars
  (a Python dict from string keys to values) is an association list `Vars`.
  `json.dumps`/`json.loads` round-trip structurally, so the store model keeps
  the `Vars` value itself in place of its serialized text.
* The SQLite `sessions` table is an association list `DB` from id to record
  data (`ctime`, `atime`, `vars`); the `id TEXT PRIMARY KEY` column is the
  association key.  `time()` / `datetime.utcnow()` are an explicit `now : Int`
  parameter (seconds).  SQL statements become list transformations:
  `DELETE ... WHERE` is `List.filter`, `UPDATE ... WHERE id = ?` maps over the
  entries with the matching key, `INSERT OR IGNORE` appends when the key is
  absent, `SELECT ... fetchone` is key lookup (no state change).
* Exceptions become `Except`/`Option` results.
-/

/-- A JSON-serializable session variable value (the payload of a session's
dict). Nested structure is irrelevant to the claims; scalar shapes suffice. -/
inductive JVal where
  | str (s : String)
  | num (n : Int)
  | boolean (b : Bool)
  | null
deriving DecidableEq, Repr

/-- Session vars: a Python dict from string keys to JSON values, as an
association list. The empty list is the empty dict (falsy in Python). -/
abbrev Vars := List (String × JVal)

/-- One row of the `sessions` table minus its key: created time, accessed
time, and the session vars (stored serialized; modelled structurally). -/
structure RecData where
  ctime : Int
  atime : Int
  vars : Vars
deriving DecidableEq, Repr

/-- The `sessions` table: rows keyed by session id (`id TEXT PRIMARY KEY`). -/
abbrev DB := List (String × RecData)

/-- Key lookup in the table: `SELECT ... WHERE id = ?` on the primary key. -/
def dbLookup (id : String) : DB → Option RecData
  | [] => none
  | (i, r) :: rest => if i = id then some r else dbLookup id rest

/-- `DELETE FROM sessions WHERE id = ?`: remove every row whose key is `id`. -/
def dbDeleteId (id : String) : DB → DB
  | [] => []
  | (i, r) :: rest =>
    if i = id then dbDeleteId id rest else (i, r) :: dbDeleteId id rest

/-- `DELETE FROM sessions WHERE atime < cutoff`: remove every row whose
`atime` is strictly below the cutoff. -/
def dbDeleteOld (cutoff : Int) : DB → DB
  | [] => []
  | (i, r) :: rest =>
    if r.atime < cutoff then dbDeleteOld cutoff rest
    else (i, r) :: dbDeleteOld cutoff rest

/-- `UPDATE sessions SET atime = ?, vars = ? WHERE id = ?`: rewrite `atime`
and `vars` of every row whose key is `id`, leaving `ctime` untouched. -/
def dbUpdate (now : Int) (id : String) (vars : Vars) : DB → DB
  | [] => []
  | (i, r) :: rest =>
    if i = id then (i, { r with atime := now, vars := vars }) :: dbUpdate now id vars rest
    else (i, r) :: dbUpdate now id vars rest

namespace SQLiteStore

/-- SQLiteStore.gc: `DELETE FROM sessions WHERE atime < now - timeout`
(tokkuri.py lines 389-395). A row survives iff `now - timeout <= atime`. -/
def gc (timeout now : Int) (db : DB) : DB :=
  dbDeleteOld (now - timeout) db

/-- SQLiteStore.save (tokkuri.py lines 397-419): within one transaction,
if `vars` is empty delete the row and return; otherwise
`INSERT OR IGNORE INTO sessions(id, ctime, atime, vars) VALUES (?, now, now, '')`
then `UPDATE sessions SET atime = now, vars = ? WHERE id = ?`. -/
def save (now : Int) (id : String) (vars : Vars) (db : DB) : DB :=
  if vars.isEmpty then
    dbDeleteId id db
  else
    let db1 : DB := match dbLookup id db with
      | some _ => db
      | none => db ++ [(id, { ctime := now, atime := now, vars := [] })]
    dbUpdate now id vars db1

/-- SQLiteStore.load (tokkuri.py lines 421-430):
`SELECT vars FROM sessions WHERE id = ? AND atime > now - timeout`; when no
row matches, raise `TimedOutException` (the `Except.error ()` case). -/
def load (timeout now : Int) (id : String) (db : DB) : Except Unit Vars :=
  match dbLookup id db with
  | some r => if now - timeout < r.atime then Except.ok r.vars else Except.error ()
  | none => Except.error ()

/-- The three store-contract operations. -/
inductive StoreOp where
  | opSave (id : String) (vars : Vars)
  | opLoad (id : String)
  | opGc
deriving Repr

/-- Result of running one store operation. -/
inductive OpResult where
  | done
  | loaded (r : Except Unit Vars)
deriving Repr

/-- State-transformer view of the store: each operation takes the table to
the table after the operation plus a result. `load` runs a single `SELECT`,
which does not modify the table. -/
def runOp (timeout now : Int) (op : StoreOp) (db : DB) : DB × OpResult :=
  match op with
  | StoreOp.opSave id vars => (save now id vars db, OpResult.done)
  | StoreOp.opLoad id => (db, OpResult.loaded (load timeout now id db))
  | StoreOp.opGc => (gc timeout now db, OpResult.done)

end SQLiteStore

/-- Invariant from the spec's data model: no stored record has empty vars. -/
def storeWF (db : DB) : Prop := ∀ p ∈ db, p.2.vars ≠ []

-- ---------------------------------------------------------------------------
-- Identifier validation (Session.validate_id, tokkuri.py lines 91-96)
-- ---------------------------------------------------------------------------

/-- A Python value passed to `Session.validate_id`: either a `str`, or any
non-string value (whose content is irrelevant to the check). -/
inductive PyId where
  | pyStr (s : String)
  | nonStr
deriving DecidableEq, Repr

/-- The two exceptions `validate_id` can raise: `TypeError` for non-string
input, `ValueError` for a string in the wrong format. -/
inductive IdError where
  | typeError
  | valueError
deriving DecidableEq, Repr

/-- Character class `[0-9a-f]` of the session-id regex. -/
def isLowerHexDigit (c : Char) : Bool :=
  ('0' ≤ c && c ≤ '9') || ('a' ≤ c && c ≤ 'f')

/-- The compiled pattern `Session._ID_PATTERN` (tokkuri.py line 34): the whole
string is exactly 32 characters, each from `[0-9a-f]`. -/
def matchesIdPattern (s : String) : Bool :=
  s.length == 32 && s.data.all isLowerHexDigit

/-- Session.validate_id (tokkuri.py lines 91-96): `TypeError` for a
non-string, `ValueError` when the pattern does not match, success otherwise.
It takes only the candidate id — no store is consulted. -/
def Session.validate_id : PyId → Except IdError Unit
  | PyId.nonStr => Except.error IdError.typeError
  | PyId.pyStr s =>
    if matchesIdPattern s then Except.ok () else Except.error IdError.valueError

-- ---------------------------------------------------------------------------
-- Cookie attribute model (SessionCookie, tokkuri.py lines 207-330)
-- ---------------------------------------------------------------------------

/-- Argument accepted by the cookie `expires` setter (tokkuri.py 314-325):
a falsy value (never expire), a `timedelta` from now, or a `datetime`
instant; datetimes are modelled as integer Unix seconds. Other types raise
`TypeError` and are outside this argument type. -/
inductive ExpiresArg where
  | falsy
  | delta (seconds : Int)
  | instant (t : Int)
deriving DecidableEq, Repr

/-- The morsel stored under the configured key in the `SimpleCookie`:
the session-id value plus whichever attributes have been set.  Serializing
the cookie (`str(cookie)`) emits exactly this data, so the pending
cookie-to-send is modelled as a `Morsel` snapshot. -/
structure Morsel where
  value : String
  domain : Option String := none
  path : Option String := none
  secure : Option Bool := none
  httponly : Option Bool := none
  expires : Option Int := none
deriving DecidableEq, Repr

/-- Cookie defaults from `cookie.config` (tokkuri.py 211-218); a `none`
field is Python `None`, meaning "no default to apply". -/
structure CookieConfig where
  domain : Option String := none
  path : Option String := none
  secure : Option Bool := none
  httponly : Option Bool := none
  expires : Option ExpiresArg := none
deriving DecidableEq, Repr

/-- SessionCookie: the one named cookie's config, its morsel (absent when
the inbound header carried no cookie under the key), and the
`attr_changed` flag (tokkuri.py 219-220). -/
structure SessionCookie where
  config : CookieConfig
  morsel : Option Morsel
  attr_changed : Bool
deriving DecidableEq, Repr

/-- SessionCookie.__init__: parse the inbound header (modelled as the
already-extracted morsel for the key) with `attr_changed = False`. -/
def SessionCookie.fromHeader (cfg : CookieConfig) (inbound : Option Morsel) : SessionCookie :=
  { config := cfg, morsel := inbound, attr_changed := false }

/-- The `value` getter (tokkuri.py 231-234): `None` when the key is absent,
else the morsel's value. -/
def SessionCookie.value (c : SessionCookie) : Option String :=
  c.morsel.map Morsel.value

/-- The `domain` setter (tokkuri.py 260-262): marks `attr_changed` and
writes the attribute on the key's morsel. -/
def SessionCookie.setDomain (d : String) (c : SessionCookie) : SessionCookie :=
  { c with attr_changed := true,
           morsel := c.morsel.map (fun m => { m with domain := some d }) }

/-- The `path` setter (tokkuri.py 272-274). -/
def SessionCookie.setPath (p : String) (c : SessionCookie) : SessionCookie :=
  { c with attr_changed := true,
           morsel := c.morsel.map (fun m => { m with path := some p }) }

/-- The `secure` setter (tokkuri.py 284-286). -/
def SessionCookie.setSecure (b : Bool) (c : SessionCookie) : SessionCookie :=
  { c with attr_changed := true,
           morsel := c.morsel.map (fun m => { m with secure := some b }) }

/-- The `httponly` setter (tokkuri.py 296-298). -/
def SessionCookie.setHttponly (b : Bool) (c : SessionCookie) : SessionCookie :=
  { c with attr_changed := true,
           morsel := c.morsel.map (fun m => { m with httponly := some b }) }

/-- The `expires` setter (tokkuri.py 314-325): marks `attr_changed`; a falsy
argument becomes the far-future instant `0x7FFFFFFF`, a timedelta is added
to now, a datetime instant is used as is. -/
def SessionCookie.setExpires (now : Int) (e : ExpiresArg) (c : SessionCookie) : SessionCookie :=
  let t : Int := match e with
    | ExpiresArg.falsy => 0x7FFFFFFF
    | ExpiresArg.delta d => now + d
    | ExpiresArg.instant t => t
  { c with attr_changed := true,
           morsel := c.morsel.map (fun m => { m with expires := some t }) }

/-- Helper for the Python `if self._config[...] is not None:` guards of the
value setter: apply a setter when the configured default is not None. -/
def applyOpt {α : Type} (f : α → SessionCookie → SessionCookie)
    (o : Option α) (c : SessionCookie) : SessionCookie :=
  match o with
  | some a => f a c
  | none => c

/-- The `value` setter (tokkuri.py 236-252): store the id on the key's
morsel (creating it if absent, keeping existing attributes), apply each
configured non-None default attribute through its setter (the setters do
not touch the config, so reading the config before or after them is the
same), then reset `attr_changed` to False. -/
def SessionCookie.setValue (now : Int) (v : String) (c : SessionCookie) : SessionCookie :=
  let m0 : Morsel := c.morsel.getD { value := "" }
  let c1 : SessionCookie := { c with morsel := some { m0 with value := v } }
  let c6 : SessionCookie :=
    applyOpt (SessionCookie.setExpires now) c.config.expires
      (applyOpt SessionCookie.setHttponly c.config.httponly
        (applyOpt SessionCookie.setSecure c.config.secure
          (applyOpt SessionCookie.setPath c.config.path
            (applyOpt SessionCookie.setDomain c.config.domain c1))))
  { c6 with attr_changed := false }

-- ---------------------------------------------------------------------------
-- Session (tokkuri.py lines 30-150)
-- ---------------------------------------------------------------------------

/-- Session state: the cookie config kept in `self._config`
(`cookie.config`), the `_is_new` flag, the vars dict, the pending
cookie-to-send (the empty string is falsy in Python, so absent is `none`),
and the owned SessionCookie. -/
structure Session where
  cfg : CookieConfig
  is_new : Bool
  vars : Vars
  cookie_to_send : Option Morsel
  cookie : SessionCookie
deriving DecidableEq, Repr

/-- The sequence of `store.save(id, vars)` calls a Session has issued; the
id argument is `self.id` (the cookie value, `None` when absent). -/
abbrev Trace := List (Option String × Vars)

/-- The `id` property (tokkuri.py 78-80): the cookie's value. -/
def Session.id (s : Session) : Option String := s.cookie.value

/-- Session.get_cookie_to_send (tokkuri.py 121-128): the pending serialized
cookie, or `None` when nothing is pending. -/
def Session.get_cookie_to_send (s : Session) : Option Morsel := s.cookie_to_send

/-- Session.save (tokkuri.py 105-109): when the session is new or a cookie
attribute changed, stage the serialized current cookie as the cookie to
send; then call `store.save(self.id, self._vars)` unconditionally (appended
to the trace). -/
def Session.save (s : Session) (tr : Trace) : Session × Trace :=
  let s1 : Session := if s.is_new || s.cookie.attr_changed
    then { s with cookie_to_send := s.cookie.morsel }
    else s
  (s1, tr ++ [(s.cookie.value, s.vars)])

/-- Session._renew (tokkuri.py 98-103): mark new, empty the vars, build a
fresh SessionCookie from an empty header with the configured defaults, and
set its value to a freshly generated id (`genid` is random, so the id is a
parameter). -/
def Session.renew (now : Int) (newId : String) (s : Session) : Session :=
  let c0 : SessionCookie := SessionCookie.fromHeader s.cfg none
  { s with is_new := true, vars := [],
           cookie := SessionCookie.setValue now newId c0 }

/-- Session.clear (tokkuri.py 111-116): set the cookie's expiration to
`utcnow() - timedelta(365)` (365 days in the past), empty the vars, save,
then re-initialize as a brand-new session. -/
def Session.clear (now : Int) (newId : String) (s : Session) (tr : Trace) :
    Session × Trace :=
  let s1 : Session :=
    { s with cookie :=
        SessionCookie.setExpires now (ExpiresArg.instant (now - 365 * 86400)) s.cookie }
  let s2 : Session := { s1 with vars := [] }
  let p := Session.save s2 tr
  (Session.renew now newId p.1, p.2)

/-- The process-wide store registry `STORES` (tokkuri.py 434-436): the keys
of the registered store constructors. -/
def STORES : List String := ["sqlite"]

/-- Python `str.lower()` as used on `config['store.type']` (tokkuri.py 48):
ASCII lowercasing of each character. -/
def asciiLower (s : String) : String :=
  String.mk (s.data.map (fun c =>
    if 'A' ≤ c && c ≤ 'Z' then Char.ofNat (c.toNat + 32) else c))

/-- Concrete old id for the clear-then-save scenario (32 hex chars). -/
def c1OldId : String := "aaaaaaaaaaaaaaaaaaaaaaaaaaaaaaaa"

/-- Concrete freshly generated id for the clear-then-save scenario. -/
def c1NewId : String := "bbbbbbbbbbbbbbbbbbbbbbbbbbbbbbbb"

/-- A concrete existing session for the clear-then-save scenario: non-empty
vars held under the old id, default cookie config. -/
def c1Session : Session :=
  { cfg := {}, is_new := false, vars := [("key1", JVal.str "string")],
    cookie_to_send := none,
    cookie := { config := {}, morsel := some { value := c1OldId },
                attr_changed := false } }

/-- Session.__init__ (tokkuri.py 36-77): raise `ValueError` (`none`) when
`store.type` (lowercased) is not registered; otherwise decode the cookie;
with no session value, renew; with an invalid id, clear; otherwise mark
not-new and load from the store, clearing on `TimedOutException`.  The
result pairs the constructed session with the trace of store-save calls
made during construction. -/
def Session.init (storeType : String) (cfg : CookieConfig) (inbound : Option Morsel)
    (timeout now : Int) (db : DB) (newId : String) : Option (Session × Trace) :=
  if STORES.contains (asciiLower storeType) then
    let s0 : Session :=
      { cfg := cfg, is_new := true, vars := [], cookie_to_send := none,
        cookie := SessionCookie.fromHeader cfg inbound }
    match s0.cookie.value with
    | none => some (Session.renew now newId s0, [])
    | some v =>
      if v = "" then some (Session.renew now newId s0, [])
      else if matchesIdPattern v then
        let s1 : Session := { s0 with is_new := false }
        match SQLiteStore.load timeout now v db with
        | Except.ok vs => some ({ s1 with vars := vs }, [])
        | Except.error _ => some (Session.clear now newId s1 [])
      else
        some (Session.clear now newId s0 [])
  else
    none

-- ---------------------------------------------------------------------------
-- Helper lemmas about the store model
-- ---------------------------------------------------------------------------

theorem dbLookup_dbDeleteId (id : String) (db : DB) :
    dbLookup id (dbDeleteId id db) = none := by
  induction db with
  | nil => rfl
  | cons hd tl ih =>
    obtain ⟨i, r⟩ := hd
    by_cases h : i = id
    · simp [dbDeleteId, h, ih]
    · simp [dbDeleteId, h, dbLookup, ih]

theorem dbLookup_dbUpdate (now : Int) (id : String) (vars : Vars) (db : DB) :
    dbLookup id (dbUpdate now id vars db)
      = (dbLookup id db).map (fun r => { r with atime := now, vars := vars }) := by
  induction db with
  | nil => rfl
  | cons hd tl ih =>
    obtain ⟨i, r⟩ := hd
    by_cases h : i = id
    · simp [dbUpdate, h, dbLookup, ih]
    · simp [dbUpdate, h, dbLookup, ih]

theorem dbLookup_append_right (id : String) (db : DB) (r : RecData)
    (h : dbLookup id db = none) :
    dbLookup id (db ++ [(id, r)]) = some r := by
  induction db with
  | nil => simp [dbLookup]
  | cons hd tl ih =>
    by_cases hh : hd.1 = id
    · simp [dbLookup, hh] at h
    · simp [dbLookup, hh] at h ⊢
      exact ih h

theorem mem_dbDeleteOld (cutoff : Int) (db : DB) (p : String × RecData) :
    p ∈ dbDeleteOld cutoff db ↔ p ∈ db ∧ cutoff ≤ p.2.atime := by
  induction db with
  | nil => simp [dbDeleteOld]
  | cons hd tl ih =>
    obtain ⟨i, r⟩ := hd
    rw [dbDeleteOld]
    by_cases h : r.atime < cutoff
    · rw [if_pos h, ih]
      constructor
      · rintro ⟨hm, hle⟩
        exact ⟨List.mem_cons_of_mem _ hm, hle⟩
      · rintro ⟨hm, hle⟩
        rcases List.mem_cons.mp hm with he | hm2
        · subst he
          exact absurd hle (not_le.mpr h)
        · exact ⟨hm2, hle⟩
    · rw [if_neg h]
      constructor
      · intro hm
        rcases List.mem_cons.mp hm with he | hm2
        · subst he
          exact ⟨List.mem_cons_self _ _, le_of_not_lt h⟩
        · rcases ih.mp hm2 with ⟨hm3, hle⟩
          exact ⟨List.mem_cons_of_mem _ hm3, hle⟩
      · rintro ⟨hm, hle⟩
        rcases List.mem_cons.mp hm with he | hm2
        · subst he
          exact List.mem_cons_self _ _
        · exact List.mem_cons_of_mem _ (ih.mpr ⟨hm2, hle⟩)

theorem mem_dbDeleteId (id : String) (db : DB) (p : String × RecData)
    (hp : p ∈ dbDeleteId id db) : p ∈ db := by
  induction db with
  | nil => simp [dbDeleteId] at hp
  | cons hd tl ih =>
    obtain ⟨i, r⟩ := hd
    rw [dbDeleteId] at hp
    by_cases h : i = id
    · rw [if_pos h] at hp
      exact List.mem_cons_of_mem _ (ih hp)
    · rw [if_neg h] at hp
      rcases List.mem_cons.mp hp with he | hm
      · subst he
        exact List.mem_cons_self _ _
      · exact List.mem_cons_of_mem _ (ih hm)

theorem mem_dbUpdate (now : Int) (id : String) (vars : Vars) (db : DB)
    (q : String × RecData) (hq : q ∈ dbUpdate now id vars db) :
    q.2.vars = vars ∨ (q ∈ db ∧ q.1 ≠ id) := by
  induction db with
  | nil => simp [dbUpdate] at hq
  | cons hd tl ih =>
    obtain ⟨i, r⟩ := hd
    rw [dbUpdate] at hq
    by_cases h : i = id
    · rw [if_pos h] at hq
      rcases List.mem_cons.mp hq with he | hm
      · subst he
        exact Or.inl rfl
      · rcases ih hm with hv | ⟨hm2, hne⟩
        · exact Or.inl hv
        · exact Or.inr ⟨List.mem_cons_of_mem _ hm2, hne⟩
    · rw [if_neg h] at hq
      rcases List.mem_cons.mp hq with he | hm
      · subst he
        exact Or.inr ⟨List.mem_cons_self _ _, h⟩
      · rcases ih hm with hv | ⟨hm2, hne⟩
        · exact Or.inl hv
        · exact Or.inr ⟨List.mem_cons_of_mem _ hm2, hne⟩

theorem SQLiteStore.load_eq_of_some (t n : Int) (id : String) (db : DB) (r : RecData)
    (h : dbLookup id db = some r) :
    SQLiteStore.load t n id db
      = if n - t < r.atime then Except.ok r.vars else Except.error () := by
  unfold SQLiteStore.load
  rw [h]

theorem SQLiteStore.load_eq_of_none (t n : Int) (id : String) (db : DB)
    (h : dbLookup id db = none) :
    SQLiteStore.load t n id db = Except.error () := by
  unfold SQLiteStore.load
  rw [h]

-- ---------------------------------------------------------------------------
-- Store-level claims
-- ---------------------------------------------------------------------------

/-- C2: `load(id)` returns the persisted vars iff a record for `id` exists
whose `atime` satisfies `atime > now - timeout`; in every other case (no
record, or the record is too old) it fails with `TimedOut`, and both failure
cases produce the same `TimedOut` error, indistinguishable to the caller. -/
theorem SQLiteStore.load_spec (t n : Int) (id : String) (db : DB) :
    (∀ v, SQLiteStore.load t n id db = Except.ok v ↔
       ∃ r, dbLookup id db = some r ∧ n - t < r.atime ∧ r.vars = v) ∧
    (SQLiteStore.load t n id db = Except.error () ↔
       dbLookup id db = none ∨ ∃ r, dbLookup id db = some r ∧ r.atime ≤ n - t) := by
  cases hdb : dbLookup id db with
  | none => simp [SQLiteStore.load_eq_of_none t n id db hdb]
  | some r =>
    rw [SQLiteStore.load_eq_of_some t n id db r hdb]
    by_cases hat : n - t < r.atime
    · rw [if_pos hat]
      refine ⟨fun v => ⟨fun hv => ?_, ?_⟩, ⟨fun h => ?_, ?_⟩⟩
      · exact ⟨r, rfl, hat, (Except.ok.injEq _ _).mp hv⟩
      · rintro ⟨r2, hr2, hgt2, hv⟩
        injection hr2 with hr2
        subst hr2
        rw [hv]
      · simp at h
      · rintro (h | ⟨r2, hr2, hle⟩)
        · simp at h
        · injection hr2 with hr2
          subst hr2
          exact absurd hle (not_le.mpr hat)
    · rw [if_neg hat]
      refine ⟨fun v => ⟨fun h => ?_, ?_⟩, ⟨fun _ => ?_, fun _ => rfl⟩⟩
      · simp at h
      · rintro ⟨r2, hr2, hgt, _⟩
        injection hr2 with hr2
        subst hr2
        exact absurd hgt hat
      · exact Or.inr ⟨r, rfl, le_of_not_lt hat⟩

/-- C3: after `save(id, vars)` with empty `vars` no record for `id` exists
(delete-on-empty), and every store operation preserves the invariant that no
stored record has empty vars. -/
theorem SQLiteStore.save_empty_deletes_and_wf (t n : Int) (id : String) (vars : Vars) (db : DB) :
    (vars = [] → dbLookup id (SQLiteStore.save n id vars db) = none) ∧
    (storeWF db → ∀ op, storeWF (SQLiteStore.runOp t n op db).1) := by
  constructor
  · intro hv
    subst hv
    unfold SQLiteStore.save
    simp only [List.isEmpty_nil, if_true]
    exact dbLookup_dbDeleteId id db
  · intro hwf op
    cases op with
    | opLoad id2 => exact hwf
    | opGc =>
      intro q hq
      exact hwf q ((mem_dbDeleteOld (n - t) db q).mp hq).1
    | opSave id2 vars2 =>
      show storeWF (SQLiteStore.save n id2 vars2 db)
      unfold SQLiteStore.save
      cases hv : vars2.isEmpty with
      | true =>
        simp only [if_true]
        intro q hq
        exact hwf q (mem_dbDeleteId id2 db q hq)
      | false =>
        simp only [Bool.false_eq_true, if_false]
        intro q hq
        cases hl : dbLookup id2 db with
        | some r =>
          rw [hl] at hq
          rcases mem_dbUpdate n id2 vars2 db q hq with hqv | ⟨hm, _⟩
          · rw [hqv]
            intro hnil
            rw [hnil] at hv
            simp [List.isEmpty_nil] at hv
          · exact hwf q hm
        | none =>
          rw [hl] at hq
          rcases mem_dbUpdate n id2 vars2 _ q hq with hqv | ⟨hm, hne⟩
          · rw [hqv]
            intro hnil
            rw [hnil] at hv
            simp [List.isEmpty_nil] at hv
          · rcases List.mem_append.mp hm with hm2 | hm2
            · exact hwf q hm2
            · rcases List.mem_singleton.mp hm2 with he
              rw [he] at hne
              exact absurd rfl hne

/-- C5 (amended): `gc()` deletes exactly the records with
`atime < now - timeout`; every record with `atime >= now - timeout` survives,
including a record whose `atime` equals `now - timeout` exactly. -/
theorem SQLiteStore.gc_spec (t n : Int) (db : DB) (p : String × RecData) :
    p ∈ SQLiteStore.gc t n db ↔ p ∈ db ∧ n - t ≤ p.2.atime :=
  mem_dbDeleteOld (n - t) db p

/-- C5 counterexample: the claim says a record with `atime` exactly equal to
`now - timeout` is deleted by `gc()`; with `timeout = 10`, `now = 10` and a
record with `atime = 0 = now - timeout`, `gc` keeps the record (the SQL uses
`atime < now - timeout`, strict). -/
theorem SQLiteStore.gc_boundary_cex :
    ¬ (∀ p ∈ SQLiteStore.gc 10 10
          [("a", { ctime := 0, atime := 0, vars := [("k", JVal.null)] })],
        (10 : Int) - 10 < p.2.atime) := by
  decide

/-- C6: saving non-empty `vars` under an id that already has a record leaves
`ctime` unchanged and sets `atime` to the current time. -/
theorem SQLiteStore.save_existing_preserves_ctime (n : Int) (id : String) (vars : Vars)
    (db : DB) (r : RecData) (h : dbLookup id db = some r) (hv : vars ≠ []) :
    dbLookup id (SQLiteStore.save n id vars db)
      = some { ctime := r.ctime, atime := n, vars := vars } := by
  have hne : vars.isEmpty = false := by
    cases vars with
    | nil => exact absurd rfl hv
    | cons a l => rfl
  unfold SQLiteStore.save
  rw [hne]
  simp only [Bool.false_eq_true, if_false, h]
  rw [dbLookup_dbUpdate, h]
  rfl

/-- C10: `load(id)` performs no write: the table is identical before and
after the call, and a repeated load without an intervening save returns the
same result (so loads do not refresh `atime` or extend a session's life). -/
theorem SQLiteStore.load_is_readonly (t n : Int) (id : String) (db : DB) :
    (SQLiteStore.runOp t n (SQLiteStore.StoreOp.opLoad id) db).1 = db ∧
    (SQLiteStore.runOp t n (SQLiteStore.StoreOp.opLoad id)
        (SQLiteStore.runOp t n (SQLiteStore.StoreOp.opLoad id) db).1).2
      = (SQLiteStore.runOp t n (SQLiteStore.StoreOp.opLoad id) db).2 :=
  ⟨rfl, rfl⟩

-- ---------------------------------------------------------------------------
-- Cookie-model lemmas
-- ---------------------------------------------------------------------------

theorem SessionCookie.value_setValue (now : Int) (v : String) (c : SessionCookie) :
    (SessionCookie.setValue now v c).value = some v := by
  unfold SessionCookie.setValue
  cases hd : c.config.domain <;> cases hp : c.config.path <;>
    cases hs : c.config.secure <;> cases hh : c.config.httponly <;>
      cases he : c.config.expires <;>
        simp [applyOpt, SessionCookie.value, SessionCookie.setDomain,
              SessionCookie.setPath, SessionCookie.setSecure,
              SessionCookie.setHttponly, SessionCookie.setExpires]

theorem SessionCookie.setValue_fresh (now : Int) (v : String) (c : SessionCookie)
    (hm : c.morsel = none) (he : c.config.expires = none) :
    ∃ m, (SessionCookie.setValue now v c).morsel = some m ∧
      m.value = v ∧ m.expires = none := by
  unfold SessionCookie.setValue
  rw [hm, he]
  cases hd : c.config.domain <;> cases hp : c.config.path <;>
    cases hs : c.config.secure <;> cases hh : c.config.httponly <;>
      simp [applyOpt, SessionCookie.setDomain, SessionCookie.setPath,
            SessionCookie.setSecure, SessionCookie.setHttponly,
            SessionCookie.setExpires, Option.getD]

theorem SessionCookie.value_setExpires (now : Int) (e : ExpiresArg) (c : SessionCookie) :
    (SessionCookie.setExpires now e c).value = c.value := by
  unfold SessionCookie.setExpires SessionCookie.value
  cases c.morsel <;> rfl

-- ---------------------------------------------------------------------------
-- Validation and cookie claims
-- ---------------------------------------------------------------------------

/-- C4: `validate_id` succeeds exactly on strings of 32 lowercase-hex
characters; every other string (wrong length, charset, or case) fails with
the format error `ValueError`; every non-string fails with `TypeError`.
The function takes only the candidate id, so no store is consulted. -/
theorem Session.validate_id_spec (s : String) :
    (Session.validate_id (PyId.pyStr s) = Except.ok () ↔
       s.length = 32 ∧ ∀ c ∈ s.data, isLowerHexDigit c = true) ∧
    (matchesIdPattern s = false →
       Session.validate_id (PyId.pyStr s) = Except.error IdError.valueError) ∧
    Session.validate_id PyId.nonStr = Except.error IdError.typeError := by
  refine ⟨?_, fun h => ?_, rfl⟩
  · simp only [Session.validate_id, matchesIdPattern]
    by_cases h : (s.length == 32 && s.data.all isLowerHexDigit) = true
    · rw [if_pos h]
      simp only [Bool.and_eq_true, beq_iff_eq, List.all_eq_true] at h
      exact ⟨fun _ => h, fun _ => rfl⟩
    · rw [if_neg h]
      simp only [Bool.and_eq_true, beq_iff_eq, List.all_eq_true] at h
      simp [h]
  · simp only [Session.validate_id]
    rw [if_neg (by simp [h])]

/-- C4 witness: a valid 32-char lowercase-hex id is accepted, a malformed
string is rejected with the format error, and the non-string case raises
the type error. -/
theorem Session.validate_id_spec_witness :
    Session.validate_id (PyId.pyStr "0123456789abcdef0123456789abcdef")
      = Except.ok () ∧
    Session.validate_id (PyId.pyStr "0123456789ABCDEF0123456789ABCDEF")
      = Except.error IdError.valueError ∧
    Session.validate_id PyId.nonStr = Except.error IdError.typeError :=
  ⟨(Session.validate_id_spec "0123456789abcdef0123456789abcdef").1.mpr
      (by decide),
   (Session.validate_id_spec "0123456789ABCDEF0123456789ABCDEF").2.1 (by decide),
   (Session.validate_id_spec "x").2.2⟩

/-- C9: each attribute setter (domain, path, secure, httponly, expires) sets
`attr_changed` to true; the value setter, even though it applies every
configured default attribute, resets `attr_changed` to false. -/
theorem SessionCookie.attr_changed_spec (c : SessionCookie) (now : Int)
    (cfg : CookieConfig) (inbound : Option Morsel)
    (d p : String) (b1 b2 : Bool) (e : ExpiresArg) (v : String) :
    (SessionCookie.fromHeader cfg inbound).attr_changed = false ∧
    (SessionCookie.setDomain d c).attr_changed = true ∧
    (SessionCookie.setPath p c).attr_changed = true ∧
    (SessionCookie.setSecure b1 c).attr_changed = true ∧
    (SessionCookie.setHttponly b2 c).attr_changed = true ∧
    (SessionCookie.setExpires now e c).attr_changed = true ∧
    (SessionCookie.setValue now v c).attr_changed = false :=
  ⟨rfl, rfl, rfl, rfl, rfl, rfl, rfl⟩

-- ---------------------------------------------------------------------------
-- Session-level claims
-- ---------------------------------------------------------------------------

/-- C7: Session.save stages a pending outbound cookie iff the session is new
or a cookie attribute changed since the attributes were last established:
then the staged cookie is the serialized current cookie, carrying the
session's id (so a brand-new session's staged cookie holds the new id and a
save after an attribute change reflects that attribute); otherwise the
session is returned unchanged, staging nothing.  In every case store.save
is called with the current id and vars, even when the vars are empty. -/
theorem Session.save_spec (s : Session) (tr : Trace) :
    ((s.is_new || s.cookie.attr_changed) = true →
       (Session.save s tr).1.get_cookie_to_send = s.cookie.morsel ∧
       ((Session.save s tr).1.get_cookie_to_send).map Morsel.value = s.id) ∧
    ((s.is_new || s.cookie.attr_changed) = false →
       (Session.save s tr).1 = s) ∧
    (Session.save s tr).2 = tr ++ [(s.id, s.vars)] := by
  refine ⟨fun h => ?_, fun h => ?_, rfl⟩
  · unfold Session.save Session.get_cookie_to_send
    rw [if_pos h]
    exact ⟨rfl, rfl⟩
  · unfold Session.save
    rw [if_neg (by rw [h]; exact Bool.false_ne_true)]

/-- C7 witness: saving a brand-new session stages its cookie (with the new
id) and issues the store-save call even though the vars are empty; saving
an existing, attribute-unchanged session stages nothing. -/
theorem Session.save_spec_witness :
    (Session.save
        { cfg := {}, is_new := true, vars := [], cookie_to_send := none,
          cookie := { config := {}, morsel := some { value := "aa" },
                      attr_changed := false } } []).1.get_cookie_to_send
      = some { value := "aa" } ∧
    (Session.save
        { cfg := {}, is_new := true, vars := [], cookie_to_send := none,
          cookie := { config := {}, morsel := some { value := "aa" },
                      attr_changed := false } } []).2
      = [(some "aa", [])] ∧
    (Session.save
        { cfg := {}, is_new := false, vars := [("k", JVal.null)],
          cookie_to_send := none,
          cookie := { config := {}, morsel := some { value := "aa" },
                      attr_changed := false } } []).1
      = { cfg := {}, is_new := false, vars := [("k", JVal.null)],
          cookie_to_send := none,
          cookie := { config := {}, morsel := some { value := "aa" },
                      attr_changed := false } } :=
  ⟨((Session.save_spec
      { cfg := {}, is_new := true, vars := [], cookie_to_send := none,
        cookie := { config := {}, morsel := some { value := "aa" },
                    attr_changed := false } } []).1 rfl).1,
   (Session.save_spec
      { cfg := {}, is_new := true, vars := [], cookie_to_send := none,
        cookie := { config := {}, morsel := some { value := "aa" },
                    attr_changed := false } } []).2.2,
   (Session.save_spec
      { cfg := {}, is_new := false, vars := [("k", JVal.null)],
        cookie_to_send := none,
        cookie := { config := {}, morsel := some { value := "aa" },
                    attr_changed := false } } []).2.1 rfl⟩

/-- C8: Session construction with an unregistered `store.type` fails with the
configuration error, which propagates (result `none`); a malformed inbound
session id, or a store load failing with `TimedOut`, is caught inside the
constructor and converted into a cleared, brand-new session carrying the
freshly generated id — construction still succeeds (`some`). -/
theorem Session.init_spec (st : String) (cfg : CookieConfig) (inbound : Option Morsel)
    (t n : Int) (db : DB) (newId : String) :
    (STORES.contains (asciiLower st) = false →
       Session.init st cfg inbound t n db newId = none) ∧
    (∀ m, inbound = some m → m.value ≠ "" → matchesIdPattern m.value = false →
       ∃ s tr, Session.init "sqlite" cfg inbound t n db newId = some (s, tr) ∧
         s.is_new = true ∧ s.vars = [] ∧ s.cookie.value = some newId) ∧
    (∀ m, inbound = some m → matchesIdPattern m.value = true →
       SQLiteStore.load t n m.value db = Except.error () →
       ∃ s tr, Session.init "sqlite" cfg inbound t n db newId = some (s, tr) ∧
         s.is_new = true ∧ s.vars = [] ∧ s.cookie.value = some newId) := by
  have hreg : STORES.contains (asciiLower "sqlite") = true := by decide
  refine ⟨fun h => ?_, fun m hm hne hpat => ?_, fun m hm hpat hload => ?_⟩
  · unfold Session.init
    rw [if_neg (by rw [h]; exact Bool.false_ne_true)]
  · subst hm
    unfold Session.init
    rw [if_pos hreg]
    simp only [SessionCookie.fromHeader, SessionCookie.value, Option.map_some']
    rw [if_neg hne, if_neg (by rw [hpat]; exact Bool.false_ne_true)]
    refine ⟨_, _, rfl, rfl, rfl, ?_⟩
    exact SessionCookie.value_setValue n newId _
  · subst hm
    unfold Session.init
    rw [if_pos hreg]
    simp only [SessionCookie.fromHeader, SessionCookie.value, Option.map_some']
    have hne : m.value ≠ "" := by
      intro hv
      rw [hv] at hpat
      exact absurd hpat (by decide)
    rw [if_neg hne, if_pos hpat, hload]
    refine ⟨_, _, rfl, rfl, rfl, ?_⟩
    exact SessionCookie.value_setValue n newId _

/-- C8 witness: an unknown store type fails construction; a 31-character id
is converted into a new cleared session; a well-formed id whose record is
absent from the store (so load times out) likewise yields a new session. -/
theorem Session.init_spec_witness :
    Session.init "redis" {} none 10 5 [] "0123456789abcdef0123456789abcdef"
      = none ∧
    (∃ s tr, Session.init "sqlite" {}
        (some { value := "0123456789abcdef0123456789abcde" }) 10 5 []
        "0123456789abcdef0123456789abcdef" = some (s, tr) ∧
      s.is_new = true ∧ s.vars = [] ∧
      s.cookie.value = some "0123456789abcdef0123456789abcdef") ∧
    (∃ s tr, Session.init "sqlite" {}
        (some { value := "00000000000000000000000000000000" }) 10 5 []
        "0123456789abcdef0123456789abcdef" = some (s, tr) ∧
      s.is_new = true ∧ s.vars = [] ∧
      s.cookie.value = some "0123456789abcdef0123456789abcdef") :=
  ⟨(Session.init_spec "redis" {} none 10 5 [] "0123456789abcdef0123456789abcdef").1
      (by decide),
   (Session.init_spec "sqlite" {}
       (some { value := "0123456789abcdef0123456789abcde" }) 10 5 []
       "0123456789abcdef0123456789abcdef").2.1
     { value := "0123456789abcdef0123456789abcde" } rfl (by decide) (by decide),
   (Session.init_spec "sqlite" {}
       (some { value := "00000000000000000000000000000000" }) 10 5 []
       "0123456789abcdef0123456789abcdef").2.2
     { value := "00000000000000000000000000000000" } rfl (by decide) rfl⟩

theorem getLast?_append_singleton {α : Type} (l : List α) (a : α) :
    (l ++ [a]).getLast? = some a := by
  rw [List.getLast?_append_cons]
  rfl

theorem SessionCookie.morsel_map_value_setValue (now : Int) (v : String) (c : SessionCookie) :
    Option.map Morsel.value (SessionCookie.setValue now v c).morsel = some v :=
  SessionCookie.value_setValue now v c

/-- C1: on a session holding non-empty vars under an old id (default cookie
expiry config, fresh id distinct from the old one), `clear()` alone leaves a
pending cookie carrying the OLD id with an expiration in the past, while
`clear()` followed by `save()` makes the store's last save call
`(new_id, empty vars)` and overwrites the pending cookie with one carrying
the NEW id, no expires attribute, and not the old id. -/
theorem Session.clear_then_save_spec (s : Session) (tr : Trace) (now : Int)
    (oldId newId : String) (m : Morsel)
    (hm : s.cookie.morsel = some m) (hval : m.value = oldId)
    (_hvars : s.vars ≠ []) (hcfg : s.cfg.expires = none) (hne : newId ≠ oldId) :
    (∃ m1, (Session.clear now newId s tr).1.get_cookie_to_send = some m1 ∧
       m1.value = oldId ∧ ∃ e, m1.expires = some e ∧ e < now) ∧
    (Session.save (Session.clear now newId s tr).1
        (Session.clear now newId s tr).2).2.getLast? = some (some newId, []) ∧
    (∃ m2, (Session.save (Session.clear now newId s tr).1
          (Session.clear now newId s tr).2).1.get_cookie_to_send = some m2 ∧
       m2.value = newId ∧ m2.expires = none ∧ m2.value ≠ oldId) := by
  obtain ⟨m2, hm2, hv2, he2⟩ := SessionCookie.setValue_fresh now newId
    (SessionCookie.fromHeader s.cfg none) rfl hcfg
  refine ⟨?_, ?_, ?_⟩
  · simp only [Session.clear, Session.save, Session.renew, Session.get_cookie_to_send,
      SessionCookie.setExpires, SessionCookie.fromHeader, SessionCookie.value,
      hm, Option.map_some', Bool.or_true, Bool.true_or]
    simp only [if_true, eq_self_iff_true, true_and]
    exact ⟨{ m with expires := some (now - 365 * 86400) }, rfl, hval,
      ⟨now - 365 * 86400, rfl, by omega⟩⟩
  · simp only [Session.clear, Session.save, Session.renew, Session.get_cookie_to_send,
      SessionCookie.setExpires, SessionCookie.fromHeader, SessionCookie.value,
      SessionCookie.morsel_map_value_setValue,
      hm, Option.map_some', Bool.or_true, Bool.true_or, if_true]
    rw [getLast?_append_singleton]
  · simp only [Session.clear, Session.save, Session.renew, Session.get_cookie_to_send,
      SessionCookie.setExpires, SessionCookie.fromHeader, SessionCookie.value,
      hm, Option.map_some', Bool.or_true, Bool.true_or, if_true]
    refine ⟨m2, ?_, hv2, he2, ?_⟩
    · exact hm2
    · rw [hv2]
      exact hne

/-- C1 witness: the scenario at concrete inputs — old id of 32 a's, new id
of 32 b's, one var, default config, time 1000. -/
theorem Session.clear_then_save_spec_witness :
    (∃ m1, (Session.clear 1000 c1NewId c1Session []).1.get_cookie_to_send = some m1 ∧
       m1.value = c1OldId ∧ ∃ e, m1.expires = some e ∧ e < 1000) ∧
    (Session.save (Session.clear 1000 c1NewId c1Session []).1
        (Session.clear 1000 c1NewId c1Session []).2).2.getLast?
      = some (some c1NewId, []) ∧
    (∃ m2, (Session.save (Session.clear 1000 c1NewId c1Session []).1
          (Session.clear 1000 c1NewId c1Session []).2).1.get_cookie_to_send = some m2 ∧
       m2.value = c1NewId ∧ m2.expires = none ∧ m2.value ≠ c1OldId) :=
  Session.clear_then_save_spec c1Session [] 1000 c1OldId c1NewId
    { value := c1OldId } rfl rfl (by decide) rfl (by decide)

/-- C2 witness: a live record is returned; a missing id fails with the same
`TimedOut` error as an expired one would. -/
theorem SQLiteStore.load_spec_witness :
    SQLiteStore.load 10 12 "a"
        [("a", { ctime := 1, atime := 5, vars := [("k", JVal.num 3)] })]
      = Except.ok [("k", JVal.num 3)] ∧
    SQLiteStore.load 10 12 "b"
        [("a", { ctime := 1, atime := 5, vars := [("k", JVal.num 3)] })]
      = Except.error () :=
  ⟨((SQLiteStore.load_spec 10 12 "a"
        [("a", { ctime := 1, atime := 5, vars := [("k", JVal.num 3)] })]).1
      [("k", JVal.num 3)]).mpr
      ⟨{ ctime := 1, atime := 5, vars := [("k", JVal.num 3)] },
        by decide, by decide, rfl⟩,
   ((SQLiteStore.load_spec 10 12 "b"
        [("a", { ctime := 1, atime := 5, vars := [("k", JVal.num 3)] })]).2).mpr
      (Or.inl (by decide))⟩

/-- C3 witness: saving empty vars removes the record, and gc preserves the
no-empty-vars invariant on a concrete table. -/
theorem SQLiteStore.save_empty_deletes_and_wf_witness :
    dbLookup "a" (SQLiteStore.save 7 "a" []
        [("a", { ctime := 1, atime := 2, vars := [("k", JVal.null)] })]) = none ∧
    storeWF (SQLiteStore.runOp 10 7 SQLiteStore.StoreOp.opGc
        [("a", { ctime := 1, atime := 2, vars := [("k", JVal.null)] })]).1 :=
  ⟨(SQLiteStore.save_empty_deletes_and_wf 10 7 "a" []
      [("a", { ctime := 1, atime := 2, vars := [("k", JVal.null)] })]).1 rfl,
   (SQLiteStore.save_empty_deletes_and_wf 10 7 "a" []
      [("a", { ctime := 1, atime := 2, vars := [("k", JVal.null)] })]).2
     (by unfold storeWF; decide) SQLiteStore.StoreOp.opGc⟩

/-- C5 witness (amended claim): membership in the gc result on a concrete
table matches the strict-cutoff characterization. -/
theorem SQLiteStore.gc_spec_witness :
    ("a", ({ ctime := 0, atime := 5, vars := [("k", JVal.null)] } : RecData)) ∈
        SQLiteStore.gc 10 10
          [("a", { ctime := 0, atime := 5, vars := [("k", JVal.null)] })] ↔
      ("a", ({ ctime := 0, atime := 5, vars := [("k", JVal.null)] } : RecData)) ∈
          [("a", ({ ctime := 0, atime := 5, vars := [("k", JVal.null)] } : RecData))] ∧
        (10 : Int) - 10 ≤ 5 :=
  SQLiteStore.gc_spec 10 10
    [("a", { ctime := 0, atime := 5, vars := [("k", JVal.null)] })]
    ("a", { ctime := 0, atime := 5, vars := [("k", JVal.null)] })

/-- C6 witness: updating an existing record keeps `ctime = 1` and moves
`atime` to the save time 9. -/
theorem SQLiteStore.save_existing_preserves_ctime_witness :
    dbLookup "a" (SQLiteStore.save 9 "a" [("x", JVal.num 2)]
        [("a", { ctime := 1, atime := 5, vars := [("k", JVal.null)] })])
      = some { ctime := 1, atime := 9, vars := [("x", JVal.num 2)] } :=
  SQLiteStore.save_existing_preserves_ctime 9 "a" [("x", JVal.num 2)]
    [("a", { ctime := 1, atime := 5, vars := [("k", JVal.null)] })]
    { ctime := 1, atime := 5, vars := [("k", JVal.null)] } (by decide) (by decide)
